import Mathlib

/-!
Verification of the cleanspeak-js client facade (src/index.js).

The file shallowly embeds the request-construction, response-normalization
and queue-indirection layer of the CleanSpeak client.  JS values that flow
into request bodies are modelled by `JsonVal` (with an explicit `jundefined`
constructor for the JS undefined value), each public operation is modelled
as a pure function from the constructed client, its arguments and the
current clock value to the single outward action it performs, and each
response continuation is modelled as a pure function from the transport
outcome to the callback invocation it produces.  External collaborators
(the HTTP transport, the pg side-store, Node url.resolve, lodash pick) are
modelled at their documented contracts.
-/

/-- Model of a JS value as it appears in request and response bodies.
`jundefined` is the JS undefined value: reading an absent property yields it,
and JSON.stringify drops object keys bound to it. -/
inductive JsonVal where
  | jundefined
  | jnull
  | jbool (b : Bool)
  | jnum (n : Int)
  | jstr (s : String)
  | jarr (elems : List JsonVal)
  | jobj (fields : List (String × JsonVal))

/-- True exactly on the string constructor. -/
def JsonVal.isStr : JsonVal → Bool
  | .jstr _ => true
  | _ => false

/-- True exactly on the object constructor. -/
def JsonVal.isObj : JsonVal → Bool
  | .jobj _ => true
  | _ => false

/-- Field lookup in an object field list; the later binding wins, as for JS
object keys, and an absent key yields the JS undefined value. -/
def objGetD : List (String × JsonVal) → String → JsonVal
  | [], _ => .jundefined
  | (k, v) :: rest, key =>
    match objGetD rest key with
    | .jundefined => if k == key then v else .jundefined
    | w => w

/-- JS property access on a modelled value: object fields are looked up,
any other receiver yields undefined. -/
def JsonVal.get : JsonVal → String → JsonVal
  | .jobj fs, key => objGetD fs key
  | _, _ => .jundefined

/-- JS truthiness of a modelled value (undefined, null, false, 0 and the
empty string are falsy; every array and object is truthy). -/
def jsTruthyV : JsonVal → Bool
  | .jundefined => false
  | .jnull => false
  | .jbool b => b
  | .jnum n => n != 0
  | .jstr s => s != ""
  | .jarr _ => true
  | .jobj _ => true

/-- Model of the lodash pick-by-predicate call used by addUser: keeps, in
order, exactly the fields whose value is truthy. -/
def pickTruthy (fields : List (String × JsonVal)) : List (String × JsonVal) :=
  fields.filter fun kv => jsTruthyV kv.2

/-- JSON string escaping for one character, as JSON.stringify performs it
on the characters that occur in this development. -/
def jsonEscapeChar (c : Char) : String :=
  if c = '"' then "\\\""
  else if c = '\\' then "\\\\"
  else if c = '\n' then "\\n"
  else if c = '\r' then "\\r"
  else if c = '\t' then "\\t"
  else String.singleton c

/-- JSON string escaping, character by character. -/
def jsonEscape (s : String) : String :=
  String.join (s.toList.map jsonEscapeChar)

mutual

/-- Model of JSON.stringify on a modelled JS value.  A top-level undefined
only arises inside arrays, where JSON.stringify renders null; object keys
bound to undefined are dropped, as JSON.stringify does. -/
def stringify : JsonVal → String
  | .jundefined => "null"
  | .jnull => "null"
  | .jbool true => "true"
  | .jbool false => "false"
  | .jnum n => toString n
  | .jstr s => "\"" ++ jsonEscape s ++ "\""
  | .jarr xs => "[" ++ stringifyElems xs ++ "]"
  | .jobj fs => "\x7b" ++ stringifyFields fs ++ "\x7d"

/-- Comma-separated rendering of array elements. -/
def stringifyElems : List JsonVal → String
  | [] => ""
  | [x] => stringify x
  | x :: y :: rest => stringify x ++ "," ++ stringifyElems (y :: rest)

/-- Comma-separated rendering of object fields, dropping keys whose value
is the JS undefined value, as JSON.stringify does. -/
def stringifyFields : List (String × JsonVal) → String
  | [] => ""
  | (k, v) :: rest =>
    match v with
    | .jundefined => stringifyFields rest
    | _ =>
      match stringifyFields rest with
      | "" => "\"" ++ jsonEscape k ++ "\":" ++ stringify v
      | tail => "\"" ++ jsonEscape k ++ "\":" ++ stringify v ++ "," ++ tail

end

/-- HTTP method of an outgoing request. -/
inductive HttpMethod where
  | GET
  | POST
  | PUT
  | DELETE
deriving DecidableEq

/-- One outgoing HTTP request as the request library receives it: method,
resolved URI, headers (a header bound to none models an undefined header
value, as when authToken was not configured) and the serialized body. -/
structure HttpRequest where
  method : HttpMethod
  uri : String
  headers : List (String × Option String)
  body : Option String

/-- One invocation of the caller callback: the error argument (jnull on
success) and the result argument (jundefined when the callback is invoked
without a result). -/
structure CallbackCall where
  err : JsonVal
  result : JsonVal

/-- The single outward action an operation performs when invoked: an
immediate synchronous callback (disabled mode or validation failure), an
enqueue handed to the configured queue, or one HTTP request. -/
inductive InitialAction where
  | callback (c : CallbackCall)
  | enqueue (jobName : String) (payload : JsonVal)
  | http (req : HttpRequest)

/-- True exactly when the action is an HTTP request. -/
def InitialAction.isHttp : InitialAction → Bool
  | .http _ => true
  | _ => false

/-- True exactly when the action is an enqueue. -/
def InitialAction.isEnq : InitialAction → Bool
  | .enqueue _ _ => true
  | _ => false

/-- Body of a completed HTTP response, as handed to the continuation: a
body that JSON.parse decodes to a value, or raw text that does not parse
as JSON. -/
inductive RawBody where
  | jsonBody (v : JsonVal)
  | textBody (s : String)

/-- Outcome of one HTTP exchange: a transport failure carrying the truthy
error the request library passed, or a completed response with its status
code and raw body. -/
inductive TransportResult where
  | failure (e : JsonVal)
  | response (statusCode : Nat) (body : RawBody)

/-- Opaque handle for the external work queue (src never inspects it). -/
structure QueueHandle where
  tag : Nat

/-- Queue configuration values from the configuration surface. -/
structure QueueOptions where
  attempts : Int
  priority : String

/-- Constructor argument object (src/index.js lines 17 to 26).  The queue
and queueOpts keys appear on the configuration surface exercised by the
test suite; fields not read by the constructor model keys the caller may
pass. -/
structure CleanSpeakOpts where
  host : String
  authToken : Option String := none
  databaseUrl : Option String := none
  notificationHost : Option String := none
  notificationUsername : Option String := none
  notificationPassword : Option String := none
  enabled : Option Bool := none
  queue : Option QueueHandle := none
  queueOpts : Option QueueOptions := none

/-- The constructed client object.  ironClient is the field that moderate
consults for queue indirection; the constructor never assigns it. -/
structure CleanSpeak where
  host : String
  authToken : Option String
  databaseUrl : Option String
  notificationHost : Option String
  notificationUsername : Option String
  notificationPassword : Option String
  enabled : Bool
  ironClient : Option QueueHandle

/-- The constructor (src/index.js lines 17 to 26): copies the six plain
fields, defaults enabled to true when the key is absent, and reads no
other key of opts — in particular opts.queue and opts.queueOpts are
ignored and ironClient is left unassigned (undefined, modelled none). -/
def CleanSpeak.ofOpts (opts : CleanSpeakOpts) : CleanSpeak :=
  { host := opts.host
    authToken := opts.authToken
    databaseUrl := opts.databaseUrl
    notificationHost := opts.notificationHost
    notificationUsername := opts.notificationUsername
    notificationPassword := opts.notificationPassword
    enabled := opts.enabled.getD true
    ironClient := none }

/-- Model of Node url.resolve as used here: every call site passes a base
of the form scheme://host:port with no path, and an absolute path (or a
string built from one), so resolution is concatenation. -/
def urlResolve (base ref : String) : String :=
  base ++ ref

/-- The header object built by the JSON operations: the Authentication
header carries the configured token and Content-Type is application/json. -/
def authJsonHeaders (c : CleanSpeak) : List (String × Option String) :=
  [("Authentication", c.authToken), ("Content-Type", some "application/json")]

/-- Translation of the private response converter for filter (src/index.js
lines 459 to 466): JSON.parse has already produced jsonData, and the
filtered flag is decided by the JS truthiness of the matches property,
with replacement taken verbatim from the body in both branches. -/
def convertFilterResponse (jsonData : JsonVal) : JsonVal :=
  if jsTruthyV (jsonData.get "matches") then
    .jobj [("filtered", .jbool true), ("replacement", jsonData.get "replacement")]
  else
    .jobj [("filtered", .jbool false), ("replacement", jsonData.get "replacement")]

/-- Translation of the private error converter (src/index.js lines 473 to
487): try to JSON.parse the response body; in either branch the function
returns the result of JSON.stringify applied to the object with the
statusCode and message keys — that is, a string. -/
def convertErrors (statusCode : Nat) (body : RawBody) : JsonVal :=
  match body with
  | .jsonBody v =>
    .jstr (stringify (.jobj [("statusCode", .jnum statusCode), ("message", v)]))
  | .textBody s =>
    .jstr (stringify (.jobj [("statusCode", .jnum statusCode), ("message", .jstr s)]))

/-- The filter operation, request phase (src/index.js lines 38 to 61).
When the client is disabled it calls back immediately with the identity
bypass result; otherwise it issues one POST with the content body.  The
opts argument of the source is only consumed by the callback-shuffling
prologue and does not reach the request, so it is not a parameter here. -/
def CleanSpeak.filter (c : CleanSpeak) (content : String) : InitialAction :=
  if !c.enabled then
    .callback ⟨.jnull, .jobj [("filtered", .jbool false), ("replacement", .jstr content)]⟩
  else
    .http
      { method := .POST
        uri := urlResolve c.host "/content/item/filter"
        headers := authJsonHeaders c
        body := some (stringify (.jobj [("content", .jstr content)])) }

/-- The filter response continuation (src/index.js lines 55 to 60): a
transport error is propagated verbatim, a non-200 status goes through the
error converter, and a 200 body is JSON.parsed and converted; none models
the uncaught exception JSON.parse raises on a non-JSON 200 body. -/
def filterOnResponse (r : TransportResult) : Option CallbackCall :=
  match r with
  | .failure e => some ⟨e, .jundefined⟩
  | .response sc body =>
    if sc ≠ 200 then some ⟨convertErrors sc body, .jundefined⟩
    else
      match body with
      | .jsonBody v => some ⟨.jnull, convertFilterResponse v⟩
      | .textBody _ => none

/-- Options object of the moderate operation.  The boolean-consumed keys
are kept as JS values and read through truthiness, as the source does. -/
structure ModerateOpts where
  contentId : String := ""
  senderId : JsonVal := .jundefined
  senderDisplayName : JsonVal := .jundefined
  applicationId : JsonVal := .jundefined
  requiresApproval : JsonVal := .jundefined
  generatesAlert : JsonVal := .jundefined
  update : JsonVal := .jundefined

/-- The JS object carrying the moderate options, as serialized into the
queue payload. -/
def ModerateOpts.toVal (o : ModerateOpts) : JsonVal :=
  .jobj [("contentId", .jstr o.contentId), ("senderId", o.senderId),
    ("senderDisplayName", o.senderDisplayName), ("applicationId", o.applicationId),
    ("requiresApproval", o.requiresApproval), ("generatesAlert", o.generatesAlert),
    ("update", o.update)]

/-- HTTP method selection of moderate (src/index.js line 100): PUT when
opts.update is truthy, POST otherwise. -/
def moderateMethod (o : ModerateOpts) : HttpMethod :=
  if jsTruthyV o.update then .PUT else .POST

/-- Moderation tag selection of moderate (src/index.js lines 102 to 107):
generatesAlert wins over requiresApproval, and the tag stays null when
neither flag is truthy. -/
def moderateQueueOption (o : ModerateOpts) : JsonVal :=
  if jsTruthyV o.generatesAlert then .jstr "generatesAlert"
  else if jsTruthyV o.requiresApproval then .jstr "requiresApproval"
  else .jnull

/-- Outgoing body of moderate (src/index.js lines 113 to 122). -/
def moderateBody (content : JsonVal) (o : ModerateOpts) (now : Int) : JsonVal :=
  .jobj
    [("content", .jobj
      [("applicationId", o.applicationId), ("createInstant", .jnum now),
        ("parts", content), ("senderId", o.senderId),
        ("senderDisplayName", o.senderDisplayName)]),
      ("moderation", moderateQueueOption o)]

/-- The moderate operation, request phase (src/index.js lines 91 to 131):
disabled gate first, then the ironClient queue guard (the field the
constructor never assigns), then one HTTP request. -/
def CleanSpeak.moderate (c : CleanSpeak) (content : JsonVal) (o : ModerateOpts)
    (now : Int) : InitialAction :=
  if !c.enabled then .callback ⟨.jnull, .jundefined⟩
  else
    match c.ironClient with
    | some _ => .enqueue "moderate" (.jobj [("content", content), ("opts", o.toVal)])
    | none =>
      .http
        { method := moderateMethod o
          uri := urlResolve c.host ("/content/item/moderate/" ++ o.contentId)
          headers := authJsonHeaders c
          body := some (stringify (moderateBody content o now)) }

/-- The moderate response continuation (src/index.js lines 125 to 130). -/
def moderateOnResponse (r : TransportResult) : Option CallbackCall :=
  match r with
  | .failure e => some ⟨e, .jundefined⟩
  | .response sc body =>
    if sc ≠ 200 then some ⟨convertErrors sc body, .jundefined⟩ else some ⟨.jnull, .jundefined⟩

/-- Options object of the flagContent operation. -/
structure FlagOpts where
  reason : JsonVal := .jundefined
  comment : JsonVal := .jundefined

/-- Outgoing body of flagContent (src/index.js lines 165 to 172): reason
and comment join the flag object only when truthy. -/
def flagBody (reporterId : String) (o : FlagOpts) (now : Int) : JsonVal :=
  .jobj [("flag", .jobj
    ([("reporterId", .jstr reporterId), ("createInstant", .jnum now)]
      ++ (if jsTruthyV o.reason then [("reason", o.reason)] else [])
      ++ (if jsTruthyV o.comment then [("comment", o.comment)] else [])))]

/-- The flagContent operation, request phase (src/index.js lines 153 to
181): disabled gate, then always one POST — the source contains no queue
guard in this operation. -/
def CleanSpeak.flagContent (c : CleanSpeak) (contentId reporterId : String)
    (o : FlagOpts) (now : Int) : InitialAction :=
  if !c.enabled then .callback ⟨.jnull, .jundefined⟩
  else
    .http
      { method := .POST
        uri := urlResolve c.host ("/content/item/flag/" ++ contentId)
        headers := authJsonHeaders c
        body := some (stringify (flagBody reporterId o now)) }

/-- The flagContent response continuation (src/index.js lines 175 to 180). -/
def flagContentOnResponse (r : TransportResult) : Option CallbackCall :=
  match r with
  | .failure e => some ⟨e, .jundefined⟩
  | .response sc body =>
    if sc ≠ 200 then some ⟨convertErrors sc body, .jundefined⟩ else some ⟨.jnull, .jundefined⟩

/-- The lastLoginInstant argument as the caller may supply it: a JS Date
carrying an epoch-millis value, or any plain JS value (a number, or
undefined when the key is absent). -/
inductive LastLoginValue where
  | dateVal (ms : Int)
  | plain (v : JsonVal)

/-- Normalization applied at src/index.js line 208: a Date instance is
replaced by its valueOf epoch-millis number; everything else passes
through unchanged. -/
def normalizeLastLogin : LastLoginValue → JsonVal
  | .dateVal ms => .jnum ms
  | .plain v => v

/-- Options object of the addUser operation. -/
structure AddUserOpts where
  applicationIds : JsonVal := .jundefined
  attributes : JsonVal := .jundefined
  displayNames : JsonVal := .jundefined
  birthDate : JsonVal := .jundefined
  email : JsonVal := .jundefined
  lastLoginInstant : LastLoginValue := .plain .jundefined
  name : JsonVal := .jundefined
  imageURL : JsonVal := .jundefined
  update : JsonVal := .jundefined

/-- Outgoing body of addUser (src/index.js lines 215 to 230): the user
object is the truthy-filtered pick over the listed keys, in source order,
with createInstant bound to the clock value and lastLoginInstant already
normalized. -/
def addUserBody (o : AddUserOpts) (now : Int) : JsonVal :=
  .jobj [("user", .jobj (pickTruthy
    [("applicationIds", o.applicationIds), ("attributes", o.attributes),
      ("displayNames", o.displayNames), ("createInstant", .jnum now),
      ("birthDate", o.birthDate), ("email", o.email),
      ("lastLoginInstant", normalizeLastLogin o.lastLoginInstant),
      ("name", o.name), ("imageURL", o.imageURL)]))]

/-- The addUser operation, request phase (src/index.js lines 201 to 238):
disabled gate, lastLoginInstant normalization, then one request whose
method is PUT when opts.update is truthy — the source contains no queue
guard in this operation. -/
def CleanSpeak.addUser (c : CleanSpeak) (userId : String) (o : AddUserOpts)
    (now : Int) : InitialAction :=
  if !c.enabled then .callback ⟨.jnull, .jundefined⟩
  else
    .http
      { method := if jsTruthyV o.update then .PUT else .POST
        uri := urlResolve c.host ("/content/user/" ++ userId)
        headers := authJsonHeaders c
        body := some (stringify (addUserBody o now)) }

/-- The addUser response continuation (src/index.js lines 234 to 237): it
propagates a transport error and otherwise calls back success — the status
code of a completed response is never read. -/
def addUserOnResponse (r : TransportResult) : Option CallbackCall :=
  match r with
  | .failure e => some ⟨e, .jundefined⟩
  | .response _ _ => some ⟨.jnull, .jundefined⟩

/-- Options object of the application operations.  A recognized
moderation-configuration key bound to none models a key the caller did not
supply; extra models any unrecognized keys (they exist on the JS object
but no code path of the source reads them, exactly as the allow-list pick
ignores them). -/
structure ApplicationOpts where
  contentDeletable : Option JsonVal := none
  contentEditable : Option JsonVal := none
  contentUserActionsEnabled : Option JsonVal := none
  defaultActionIsQueueForApproval : Option JsonVal := none
  persistent : Option JsonVal := none
  storeContent : Option JsonVal := none
  name : JsonVal := .jundefined
  id : Option String := none
  notificationPath : Option String := none
  extra : List (String × JsonVal) := []

/-- One entry of an allow-list pick: the key with its value when the key
is present on the object, nothing when it is absent. -/
def optEntry (k : String) (v : Option JsonVal) : List (String × JsonVal) :=
  match v with
  | some x => [(k, x)]
  | none => []

/-- Model of the lodash pick by key list at src/index.js lines 272 to 279
(and 363 to 370): exactly the six recognized keys, in the listed order,
each kept with its value only when present on opts. -/
def moderationPick (o : ApplicationOpts) : List (String × JsonVal) :=
  optEntry "contentDeletable" o.contentDeletable
    ++ optEntry "contentEditable" o.contentEditable
    ++ optEntry "contentUserActionsEnabled" o.contentUserActionsEnabled
    ++ optEntry "defaultActionIsQueueForApproval" o.defaultActionIsQueueForApproval
    ++ optEntry "persistent" o.persistent
    ++ optEntry "storeContent" o.storeContent

/-- Outgoing body of createApplication (src/index.js lines 280 to 285). -/
def createApplicationBody (name : String) (o : ApplicationOpts) : JsonVal :=
  .jobj [("application", .jobj
    [("name", .jstr name), ("moderationConfiguration", .jobj (moderationPick o))])]

/-- The createApplication request (src/index.js lines 287 to 290): POST to
the application path, suffixed with the id when opts.id is truthy. -/
def createApplicationRequest (c : CleanSpeak) (name : String)
    (o : ApplicationOpts) : HttpRequest :=
  { method := .POST
    uri :=
      match o.id with
      | some i => if i == "" then urlResolve c.host "/system/application"
          else urlResolve c.host "/system/application" ++ "/" ++ i
      | none => urlResolve c.host "/system/application"
    headers := authJsonHeaders c
    body := some (stringify (createApplicationBody name o)) }

/-- The createApplication operation, request phase (src/index.js lines 259
to 290): disabled gate, then one POST. -/
def CleanSpeak.createApplication (c : CleanSpeak) (name : String)
    (o : ApplicationOpts) : InitialAction :=
  if !c.enabled then .callback ⟨.jnull, .jundefined⟩
  else .http (createApplicationRequest c name o)

/-- The createApplication response continuation (src/index.js lines 290 to
300).  linkErr is the outcome the private notification-server helper (the
pg side-store collaborator, lines 422 to 450) passes to its callback:
truthy on failure of the link step, null on success.  On a 200 response
the application id is read from the parsed body, the link step runs, and
only a null link outcome reaches the success callback carrying the id
object; none models the uncaught JSON.parse exception on a non-JSON 200
body. -/
def createApplicationOnResponse (r : TransportResult) (linkErr : JsonVal) :
    Option CallbackCall :=
  match r with
  | .failure e => some ⟨e, .jundefined⟩
  | .response sc body =>
    if sc ≠ 200 then some ⟨convertErrors sc body, .jundefined⟩
    else
      match body with
      | .textBody _ => none
      | .jsonBody v =>
        if jsTruthyV linkErr then some ⟨linkErr, .jundefined⟩
        else some ⟨.jnull, .jobj [("id", (v.get "application").get "id")]⟩

/-- The whole createApplication exchange: the list of HTTP requests the
operation issues over its full run together with the final callback.  The
operation issues at most the one POST — in particular it never issues a
compensating DELETE when the link step fails after the remote application
was created. -/
def CleanSpeak.createApplicationRun (c : CleanSpeak) (name : String)
    (o : ApplicationOpts) (r : TransportResult) (linkErr : JsonVal) :
    List HttpRequest × Option CallbackCall :=
  if !c.enabled then ([], some ⟨.jnull, .jundefined⟩)
  else ([createApplicationRequest c name o], createApplicationOnResponse r linkErr)

/-- The updateApplication operation, request phase (src/index.js lines 350
to 380): disabled gate, then one PUT with the same allow-list projection
as createApplication and the name read from opts. -/
def CleanSpeak.updateApplication (c : CleanSpeak) (id : String)
    (o : ApplicationOpts) : InitialAction :=
  if !c.enabled then .callback ⟨.jnull, .jundefined⟩
  else
    .http
      { method := .PUT
        uri := urlResolve c.host ("/system/application/" ++ id)
        headers := authJsonHeaders c
        body := some (stringify (.jobj [("application", .jobj
          [("name", o.name), ("moderationConfiguration", .jobj (moderationPick o))])])) }

/-- The updateApplication response continuation (src/index.js lines 380 to
385). -/
def updateApplicationOnResponse (r : TransportResult) : Option CallbackCall :=
  match r with
  | .failure e => some ⟨e, .jundefined⟩
  | .response sc body =>
    if sc ≠ 200 then some ⟨convertErrors sc body, .jundefined⟩ else some ⟨.jnull, .jundefined⟩

/-- Options object of the deleteApplication operation. -/
structure DeleteAppOpts where
  notificationPath : Option String := none

/-- The deleteApplication operation, request phase (src/index.js lines 311
to 321): the disabled gate runs first, then the synchronous validation of
notificationPath (a missing or empty path calls back with the validation
string before any request), then one DELETE without a body. -/
def CleanSpeak.deleteApplication (c : CleanSpeak) (id : String)
    (o : DeleteAppOpts) : InitialAction :=
  if !c.enabled then .callback ⟨.jnull, .jundefined⟩
  else if !(match o.notificationPath with | some p => p != "" | none => false) then
    .callback ⟨.jstr "notificationPath is required", .jundefined⟩
  else
    .http
      { method := .DELETE
        uri := urlResolve c.host ("/system/application/" ++ id)
        headers := [("Authentication", c.authToken)]
        body := none }

/-- The deleteApplication response continuation (src/index.js lines 321 to
330).  dbErr is the outcome the notification-server delete helper (src
lines 395 to 411) passes to its callback. -/
def deleteApplicationOnResponse (r : TransportResult) (dbErr : JsonVal) :
    Option CallbackCall :=
  match r with
  | .failure e => some ⟨e, .jundefined⟩
  | .response sc body =>
    if sc ≠ 200 then some ⟨convertErrors sc body, .jundefined⟩
    else if jsTruthyV dbErr then some ⟨dbErr, .jundefined⟩
    else some ⟨.jnull, .jundefined⟩

/-- Membership in one allow-list pick entry. -/
theorem mem_optEntry (k k1 : String) (v : JsonVal) (w : Option JsonVal) :
    (k, v) ∈ optEntry k1 w ↔ (k = k1 ∧ w = some v) := by
  cases w
  · simp [optEntry]
  · simp [optEntry, Prod.ext_iff]
    tauto

/-- A configuration constructed with an explicit queue handle and
queue options (the shape exercised by the test suite). -/
def optsWithQueue : CleanSpeakOpts :=
  { host := "http://cleanspeak.example.com:8001"
    authToken := some "abc123"
    queue := some ⟨0⟩
    queueOpts := some ⟨10, "high"⟩ }

/-- The error body of the error-normalization test in test/base.js. -/
def errBody0 : JsonVal :=
  .jobj [("generalErrors", .jarr
    [.jobj [("code", .jstr "[invalid]"), ("message", .jstr "Your JSON was invalid")]])]

/-- Claim C1.  A client constructed with a queue handle in its
configuration still performs no queue indirection: the constructor ignores
the queue configuration and leaves ironClient unassigned, and flagContent,
addUser and moderate each issue an HTTP request and enqueue nothing. -/
theorem queue_config_ignored :
    (CleanSpeak.ofOpts optsWithQueue).ironClient = none ∧
    ((CleanSpeak.ofOpts optsWithQueue).flagContent "cid-1" "rid-1" {} 1000).isHttp = true ∧
    ((CleanSpeak.ofOpts optsWithQueue).flagContent "cid-1" "rid-1" {} 1000).isEnq = false ∧
    ((CleanSpeak.ofOpts optsWithQueue).addUser "uid-1" {} 1000).isHttp = true ∧
    ((CleanSpeak.ofOpts optsWithQueue).addUser "uid-1" {} 1000).isEnq = false ∧
    ((CleanSpeak.ofOpts optsWithQueue).moderate (.jarr []) {} 1000).isHttp = true ∧
    ((CleanSpeak.ofOpts optsWithQueue).moderate (.jarr []) {} 1000).isEnq = false :=
  ⟨rfl, rfl, rfl, rfl, rfl, rfl, rfl⟩

/-- Claim C2.  The error converter delivers a string (the JSON encoding of
the statusCode and message object), never the two-field structure itself:
at the error-test input and for every status and body. -/
theorem convertErrors_string_encoded :
    (convertErrors 400 (.jsonBody errBody0)).isStr = true ∧
    (convertErrors 400 (.jsonBody errBody0)).isObj = false ∧
    (convertErrors 400 (.textBody "There was a problem, contact Inversoft")).isStr = true ∧
    ∀ (sc : Nat) (b : RawBody), (convertErrors sc b).isStr = true :=
  ⟨rfl, rfl, rfl, fun _ b => by cases b <;> rfl⟩

/-- Counterexample for claim C3.  addUser reports success on a completed
exchange whose status is 400: the continuation never reads the status
code. -/
theorem addUser_success_on_error_status :
    addUserOnResponse (.response 400 (.textBody "Bad Request")) =
      some ⟨.jnull, .jundefined⟩ :=
  rfl

/-- Claim C3 as amended.  For every public operation except addUser, a
completed exchange with a non-200 status delivers exactly the converted
error (a non-null string value) to the continuation, and a transport
failure is propagated verbatim by every operation, addUser included. -/
theorem non200_error_delivery (sc : Nat) (body : RawBody) (dbErr linkErr e : JsonVal) :
    sc ≠ 200 →
    (filterOnResponse (.response sc body) = some ⟨convertErrors sc body, .jundefined⟩ ∧
      moderateOnResponse (.response sc body) = some ⟨convertErrors sc body, .jundefined⟩ ∧
      flagContentOnResponse (.response sc body) = some ⟨convertErrors sc body, .jundefined⟩ ∧
      updateApplicationOnResponse (.response sc body) = some ⟨convertErrors sc body, .jundefined⟩ ∧
      deleteApplicationOnResponse (.response sc body) dbErr = some ⟨convertErrors sc body, .jundefined⟩ ∧
      createApplicationOnResponse (.response sc body) linkErr = some ⟨convertErrors sc body, .jundefined⟩ ∧
      (convertErrors sc body).isStr = true ∧ convertErrors sc body ≠ .jnull) ∧
    (filterOnResponse (.failure e) = some ⟨e, .jundefined⟩ ∧
      moderateOnResponse (.failure e) = some ⟨e, .jundefined⟩ ∧
      flagContentOnResponse (.failure e) = some ⟨e, .jundefined⟩ ∧
      addUserOnResponse (.failure e) = some ⟨e, .jundefined⟩ ∧
      updateApplicationOnResponse (.failure e) = some ⟨e, .jundefined⟩ ∧
      deleteApplicationOnResponse (.failure e) dbErr = some ⟨e, .jundefined⟩ ∧
      createApplicationOnResponse (.failure e) linkErr = some ⟨e, .jundefined⟩) := by
  intro h
  refine ⟨⟨?_, ?_, ?_, ?_, ?_, ?_, ?_, ?_⟩, rfl, rfl, rfl, rfl, rfl, rfl, rfl⟩
  · simp [filterOnResponse, h]
  · simp [moderateOnResponse, h]
  · simp [flagContentOnResponse, h]
  · simp [updateApplicationOnResponse, h]
  · simp [deleteApplicationOnResponse, h]
  · simp [createApplicationOnResponse, h]
  · cases body <;> rfl
  · cases body <;> simp [convertErrors]

/-- Witness for the amended claim C3 at a concrete 400 exchange and a
concrete transport failure. -/
theorem non200_error_delivery_witness :
    filterOnResponse (.response 400 (.textBody "oops")) =
      some ⟨convertErrors 400 (.textBody "oops"), .jundefined⟩ ∧
    addUserOnResponse (.failure (.jstr "ECONNREFUSED")) =
      some ⟨.jstr "ECONNREFUSED", .jundefined⟩ := by
  have h := non200_error_delivery 400 (.textBody "oops") .jnull .jnull
    (.jstr "ECONNREFUSED") (by decide)
  exact ⟨h.1.1, h.2.2.2.2.1⟩

/-- Claim C4.  A client constructed with enabled set to false performs
no network or queue action on any operation: filter calls back with the
identity bypass result and the six remaining operations call back with a
plain no-op success. -/
theorem disabled_mode_no_io (o : CleanSpeakOpts) (content : String) (parts : JsonVal)
    (mo : ModerateOpts) (fo : FlagOpts) (ao : AddUserOpts) (apo : ApplicationOpts)
    (dopts : DeleteAppOpts) (uid cid rid nm aid : String) (now : Int) :
    (CleanSpeak.ofOpts { o with enabled := some false }).filter content =
      .callback ⟨.jnull, .jobj [("filtered", .jbool false), ("replacement", .jstr content)]⟩ ∧
    (CleanSpeak.ofOpts { o with enabled := some false }).moderate parts mo now =
      .callback ⟨.jnull, .jundefined⟩ ∧
    (CleanSpeak.ofOpts { o with enabled := some false }).flagContent cid rid fo now =
      .callback ⟨.jnull, .jundefined⟩ ∧
    (CleanSpeak.ofOpts { o with enabled := some false }).addUser uid ao now =
      .callback ⟨.jnull, .jundefined⟩ ∧
    (CleanSpeak.ofOpts { o with enabled := some false }).createApplication nm apo =
      .callback ⟨.jnull, .jundefined⟩ ∧
    (CleanSpeak.ofOpts { o with enabled := some false }).updateApplication aid apo =
      .callback ⟨.jnull, .jundefined⟩ ∧
    (CleanSpeak.ofOpts { o with enabled := some false }).deleteApplication aid dopts =
      .callback ⟨.jnull, .jundefined⟩ :=
  ⟨rfl, rfl, rfl, rfl, rfl, rfl, rfl⟩

/-- Claim C5.  In the moderate body the moderation field is the
generatesAlert tag whenever that flag is truthy (whatever requiresApproval
holds), the requiresApproval tag when only that flag is truthy, and null
when neither is, while the HTTP method is PUT exactly when opts.update is
truthy and POST otherwise. -/
theorem moderate_tag_and_method (content : JsonVal) (o : ModerateOpts) (now : Int) :
    (jsTruthyV o.generatesAlert = true →
      (moderateBody content o now).get "moderation" = .jstr "generatesAlert") ∧
    (jsTruthyV o.generatesAlert = false → jsTruthyV o.requiresApproval = true →
      (moderateBody content o now).get "moderation" = .jstr "requiresApproval") ∧
    (jsTruthyV o.generatesAlert = false → jsTruthyV o.requiresApproval = false →
      (moderateBody content o now).get "moderation" = .jnull) ∧
    (jsTruthyV o.update = true → moderateMethod o = .PUT) ∧
    (jsTruthyV o.update = false → moderateMethod o = .POST) := by
  refine ⟨?_, ?_, ?_, ?_, ?_⟩ <;> intros <;>
    simp [moderateBody, moderateQueueOption, moderateMethod, JsonVal.get, objGetD, *]

/-- Witness for claim C5 at concrete flag combinations. -/
theorem moderate_tag_and_method_witness :
    (moderateBody (.jarr []) { generatesAlert := .jbool true, requiresApproval := .jbool true } 5).get "moderation"
        = .jstr "generatesAlert" ∧
    (moderateBody (.jarr []) { requiresApproval := .jbool true } 5).get "moderation"
        = .jstr "requiresApproval" ∧
    (moderateBody (.jarr []) {} 5).get "moderation" = .jnull ∧
    moderateMethod { update := .jbool true } = .PUT ∧
    moderateMethod {} = .POST :=
  ⟨(moderate_tag_and_method (.jarr []) _ 5).1 rfl,
    (moderate_tag_and_method (.jarr []) _ 5).2.1 rfl rfl,
    (moderate_tag_and_method (.jarr []) _ 5).2.2.1 rfl rfl,
    (moderate_tag_and_method (.jarr []) { update := .jbool true } 5).2.2.2.1 rfl,
    (moderate_tag_and_method (.jarr []) {} 5).2.2.2.2 rfl⟩

/-- Claim C6.  The moderationConfiguration object of the createApplication
payload is exactly the allow-list projection of the options: a key-value
pair belongs to it precisely when it is one of the six recognized keys and
the caller supplied that key with that value — so unsupplied keys are
omitted, supplied false values are kept, and unrecognized keys never
appear. -/
theorem createApplication_moderation_projection (nm : String) (o : ApplicationOpts)
    (k : String) (v : JsonVal) :
    ((createApplicationBody nm o).get "application").get "moderationConfiguration"
        = .jobj (moderationPick o) ∧
    ((k, v) ∈ moderationPick o ↔
      ((k = "contentDeletable" ∧ o.contentDeletable = some v) ∨
        (k = "contentEditable" ∧ o.contentEditable = some v) ∨
        (k = "contentUserActionsEnabled" ∧ o.contentUserActionsEnabled = some v) ∨
        (k = "defaultActionIsQueueForApproval" ∧ o.defaultActionIsQueueForApproval = some v) ∨
        (k = "persistent" ∧ o.persistent = some v) ∨
        (k = "storeContent" ∧ o.storeContent = some v))) := by
  constructor
  · rfl
  · simp [moderationPick, mem_optEntry, List.mem_append]

/-- Claim C7.  After a 200 createApplication response the operation hands
control to the notification-link step: a truthy link outcome becomes the
final error with no success result, the success callback with the id
object fires only when the link outcome is null, every success callback
implies the link step succeeded, and the whole run issues exactly the one
POST request — never a compensating DELETE. -/
theorem createApplication_link_sequencing (c : CleanSpeak) (nm : String)
    (o : ApplicationOpts) (r : TransportResult) (linkErr : JsonVal) :
    c.enabled = true →
    ((∀ v : JsonVal, r = .response 200 (.jsonBody v) → jsTruthyV linkErr = true →
        (c.createApplicationRun nm o r linkErr).2 = some ⟨linkErr, .jundefined⟩) ∧
      (∀ v : JsonVal, r = .response 200 (.jsonBody v) → jsTruthyV linkErr = false →
        (c.createApplicationRun nm o r linkErr).2 =
          some ⟨.jnull, .jobj [("id", (v.get "application").get "id")]⟩) ∧
      (∀ cb : CallbackCall, (c.createApplicationRun nm o r linkErr).2 = some cb →
        cb.err = .jnull → cb.result ≠ .jundefined →
        ∃ v : JsonVal, r = .response 200 (.jsonBody v) ∧ jsTruthyV linkErr = false ∧
          cb.result = .jobj [("id", (v.get "application").get "id")]) ∧
      ((c.createApplicationRun nm o r linkErr).1 = [createApplicationRequest c nm o] ∧
        (createApplicationRequest c nm o).method = .POST)) := by
  intro hen
  refine ⟨?_, ?_, ?_, ?_, rfl⟩
  · rintro v rfl htr
    simp [CleanSpeak.createApplicationRun, hen, createApplicationOnResponse, htr]
  · rintro v rfl hfa
    simp [CleanSpeak.createApplicationRun, hen, createApplicationOnResponse, hfa]
  · rintro cb hcb herr hres
    rcases r with e | ⟨sc, body⟩
    · simp [CleanSpeak.createApplicationRun, hen, createApplicationOnResponse] at hcb
      rw [← hcb] at hres
      simp at hres
    · by_cases h200 : sc = 200
      · subst h200
        rcases body with v | s
        · by_cases hl : jsTruthyV linkErr = true
          · simp [CleanSpeak.createApplicationRun, hen, createApplicationOnResponse, hl] at hcb
            rw [← hcb] at hres
            simp at hres
          · have hl2 : jsTruthyV linkErr = false := by
              cases hx : jsTruthyV linkErr
              · rfl
              · exact absurd hx hl
            simp [CleanSpeak.createApplicationRun, hen, createApplicationOnResponse, hl2] at hcb
            refine ⟨v, rfl, hl2, ?_⟩
            rw [← hcb]
        · simp [CleanSpeak.createApplicationRun, hen, createApplicationOnResponse] at hcb
      · simp [CleanSpeak.createApplicationRun, hen, createApplicationOnResponse, h200] at hcb
        rw [← hcb] at hres
        simp at hres
  · simp [CleanSpeak.createApplicationRun, hen]

/-- Witness for claim C7: a concrete 200 response followed by a failing
link step calls back with the link error. -/
theorem createApplication_link_sequencing_witness :
    ((CleanSpeak.ofOpts { host := "http://h:8001" }).createApplicationRun "app" {}
        (.response 200 (.jsonBody (.jobj [("application", .jobj [("id", .jstr "abc")])])))
        (.jstr "db down")).2 = some ⟨.jstr "db down", .jundefined⟩ :=
  (createApplication_link_sequencing (CleanSpeak.ofOpts { host := "http://h:8001" })
    "app" {} _ (.jstr "db down") rfl).1 _ rfl rfl

/-- Claim C8.  For a decoded 200 filter body: a non-empty matches
collection yields filtered true, an absent matches key yields filtered
false, replacement is taken verbatim from the body in both cases, and in
particular a body that echoes the input text back with no matches yields
the identity result; the 200 continuation hands exactly this converted
value to the callback. -/
theorem filter_response_parsing (v : JsonVal) (ms : List JsonVal) :
    (v.get "matches" = .jarr ms → ms ≠ [] →
      convertFilterResponse v =
        .jobj [("filtered", .jbool true), ("replacement", v.get "replacement")]) ∧
    (v.get "matches" = .jundefined →
      convertFilterResponse v =
        .jobj [("filtered", .jbool false), ("replacement", v.get "replacement")]) ∧
    (∀ text : String,
      convertFilterResponse (.jobj [("replacement", .jstr text)]) =
        .jobj [("filtered", .jbool false), ("replacement", .jstr text)]) ∧
    (filterOnResponse (.response 200 (.jsonBody v)) =
      some ⟨.jnull, convertFilterResponse v⟩) := by
  refine ⟨?_, ?_, fun text => rfl, rfl⟩
  · intro h _
    simp [convertFilterResponse, h, jsTruthyV]
  · intro h
    simp [convertFilterResponse, h, jsTruthyV]

/-- Witness for claim C8 at the response bodies of the filter tests. -/
theorem filter_response_parsing_witness :
    convertFilterResponse (.jobj
        [("matches", .jarr [.jobj [("matched", .jstr "dirty")]]),
          ("replacement", .jstr "*****")]) =
      .jobj [("filtered", .jbool true), ("replacement", .jstr "*****")] ∧
    convertFilterResponse (.jobj [("replacement", .jstr "fine")]) =
      .jobj [("filtered", .jbool false), ("replacement", .jstr "fine")] :=
  ⟨(filter_response_parsing _ [.jobj [("matched", .jstr "dirty")]]).1 rfl (by simp),
    (filter_response_parsing (.jobj [("replacement", .jstr "fine")]) []).2.1 rfl⟩

/-- Claim C9.  Supplying lastLoginInstant as a Date value and as the
equivalent epoch-millis number produces byte-identical serialized bodies
and, more strongly, identical outgoing request actions: the Date is
normalized to its valueOf number before the body is built and a numeric
value passes through unchanged. -/
theorem addUser_lastLogin_normalization (c : CleanSpeak) (userId : String)
    (o : AddUserOpts) (ms now : Int) :
    stringify (addUserBody { o with lastLoginInstant := .dateVal ms } now) =
      stringify (addUserBody { o with lastLoginInstant := .plain (.jnum ms) } now) ∧
    c.addUser userId { o with lastLoginInstant := .dateVal ms } now =
      c.addUser userId { o with lastLoginInstant := .plain (.jnum ms) } now ∧
    normalizeLastLogin (.dateVal ms) = .jnum ms ∧
    normalizeLastLogin (.plain (.jnum ms)) = .jnum ms :=
  ⟨rfl, rfl, rfl, rfl⟩

/-- Claim C10.  A matches key that is present but holds the empty
collection still yields filtered true, because the converter decides the
flag by JS truthiness of the matches property (and every array is truthy),
not by non-emptiness. -/
theorem filter_empty_matches_filtered (v : JsonVal) :
    (v.get "matches" = .jarr [] →
      convertFilterResponse v =
        .jobj [("filtered", .jbool true), ("replacement", v.get "replacement")]) ∧
    (convertFilterResponse v).get "filtered" = .jbool (jsTruthyV (v.get "matches")) := by
  constructor
  · intro h
    simp [convertFilterResponse, h, jsTruthyV]
  · cases hx : jsTruthyV (v.get "matches")
    · simp only [convertFilterResponse]
      rw [hx]
      rfl
    · simp only [convertFilterResponse]
      rw [hx]
      rfl

/-- Witness for claim C10 at a concrete body with an empty matches list. -/
theorem filter_empty_matches_filtered_witness :
    convertFilterResponse (.jobj [("matches", .jarr []), ("replacement", .jstr "ok")]) =
      .jobj [("filtered", .jbool true), ("replacement", .jstr "ok")] :=
  (filter_empty_matches_filtered (.jobj [("matches", .jarr []), ("replacement", .jstr "ok")])).1 rfl
